import Mathlib

/-
Verification of the connection facade of the useDApp fragment:
the connector contract (connector.ts) and the useEthers hook
(chain-validity check, provider/chainId resolution, switchNetwork,
account derivation).  Chain ids are JS numbers, embedded as Int;
JS truthiness of a numeric value is `value is present and nonzero`,
and truthiness of a string is `string is nonempty`.
-/

namespace UseDapp

/-- Priority of a connector, as in connector.ts (ConnectorPriority). -/
inductive ConnectorPriority where
  | apiNode
  | wallet
  deriving DecidableEq

/-- Update snapshot pushed by a connector, as in connector.ts (Update). -/
structure Update where
  chainId : Int
  accounts : List String
  deriving DecidableEq

/-- Hex digits of a natural number, lowercase, as produced by JS toString(16). -/
def natToHex (n : Nat) : String :=
  String.mk (Nat.toDigits 16 n)

/-- Hex rendering of an integer, matching JS Number.prototype.toString(16). -/
def intToHex (i : Int) : String :=
  if i < 0 then "-" ++ natToHex i.natAbs else natToHex i.natAbs

/-- Native currency description of a configured network. -/
structure NativeCurrency where
  name : String
  symbol : String
  decimals : Nat
  deriving DecidableEq

/-- Configured network entry: the fields of the config consumed by useEthers
(chainId and rpcUrl per the configuration contract) together with the fields
the add-network parameters are sourced from. -/
structure Chain where
  chainId : Int
  chainName : String
  rpcUrl : Option String
  nativeCurrency : Option NativeCurrency
  blockExplorerUrl : Option String
  deriving DecidableEq

/-- Modelled from the spec: the single network-parameters object passed to
wallet_addEthereumChain (chain id hex, name, native currency, RPC URLs, block
explorer URLs) sourced from configuration.  The helper getAddNetworkParams is
imported by the source but its file is not part of the provided sources. -/
structure AddNetworkParams where
  chainIdHex : String
  chainName : String
  nativeCurrency : Option NativeCurrency
  rpcUrls : List String
  blockExplorerUrls : List String
  deriving DecidableEq

/-- Modelled from the spec: getAddNetworkParams builds the add-network
parameters object from a configured network entry. -/
def getAddNetworkParams (chain : Chain) : AddNetworkParams :=
  { chainIdHex := "0x" ++ intToHex chain.chainId
    chainName := chain.chainName
    nativeCurrency := chain.nativeCurrency
    rpcUrls := match chain.rpcUrl with | some u => [u] | none => []
    blockExplorerUrls := match chain.blockExplorerUrl with | some u => [u] | none => [] }

/-- Parameter value of an RPC request issued by switchNetwork: either the
object with the chainId hex string, or an add-network parameters object. -/
inductive RpcParam where
  | chainIdParam (hex : String)
  | addNetworkParam (p : AddNetworkParams)
  deriving DecidableEq

/-- One raw RPC request: method name and parameter list. -/
structure RpcCall where
  method : String
  params : List RpcParam
  deriving DecidableEq

/-- Outcome of a raw provider send: resolution, or rejection carrying an
optional numeric error code (Metamask uses 4902 for unknown chain). -/
inductive SendResult where
  | ok
  | err (code : Option Int)
  deriving DecidableEq

/-- A live provider as seen by useEthers: whether it exposes a raw RPC send
capability, and the response it gives to a raw send of a method with params. -/
structure Provider where
  hasSend : Bool
  respond : String → List RpcParam → SendResult

/-- Modelled from the spec: the connector controller tracked by the registry,
holding the active chainId and accounts of the connector and exposing its live
provider via getProvider (ConnectorController is not among the provided
sources; only the Connector interface is). -/
structure ConnectorController where
  chainId : Option Int
  accounts : List String
  getProvider : Option Provider

/-- Modelled from the spec: the read-only fallback network (provider and chain
id) returned by useReadonlyNetwork. -/
structure ReadonlyNetwork where
  provider : Provider
  chainId : Int

/-- Kind of a synthesized chain-id policy error: the message prefix is
Unsupported or Not configured, chosen in the effect of useEthers. -/
inductive ChainIdErrorKind where
  | unsupported
  | notConfigured
  deriving DecidableEq

/-- Error value held in the error state of useEthers: either the synthesized
ChainIdError (kind and offending chain id) or an externally reported error
from the network-state collaborator (opaque, of type ε). -/
inductive ViewError (ε : Type) where
  | chainId (kind : ChainIdErrorKind) (chain : Int)
  | external (e : ε)
  deriving DecidableEq

/-- Chain-validity effect of useEthers (part_000 lines 78 to 94): from the
configured read-only URLs (an association of chain id keys to URLs, possibly
absent), the configured networks list (possibly absent), the chain id of the
active connector and the externally reported error list, compute the error
stored by setError.  configuredChainIds is Object.keys(readOnlyUrls or empty
object) parsed back to numbers, hence always a (possibly empty) list; the
guards chainId, configuredChainIds and supportedChainIds are JS truthiness
tests. -/
def computeError {ε : Type} (readOnlyUrls : Option (List (Int × String)))
    (networks : Option (List Chain)) (activeChainId : Option Int)
    (errors : List ε) : Option (ViewError ε) :=
  let configuredChainIds : List Int := (readOnlyUrls.getD []).map Prod.fst
  let supportedChainIds : Option (List Int) := networks.map (·.map Chain.chainId)
  let chainIdTruthy : Bool := activeChainId.getD 0 != 0
  let isNotConfiguredChainId : Bool :=
    chainIdTruthy && !(configuredChainIds.contains (activeChainId.getD 0))
  let isUnsupportedChainId : Bool :=
    chainIdTruthy && supportedChainIds.isSome &&
      !((supportedChainIds.getD []).contains (activeChainId.getD 0))
  if isUnsupportedChainId || isNotConfiguredChainId then
    some (ViewError.chainId
      (if isUnsupportedChainId then ChainIdErrorKind.unsupported
       else ChainIdErrorKind.notConfigured)
      (activeChainId.getD 0))
  else
    errors.getLast?.map ViewError.external

/-- Provider and chainId resolution of useEthers (part_000 lines 96 to 104):
if the active connector exposes a live provider, use it and expose the
connector chain id only when the current error is unset; otherwise fall back
to the read-only network. -/
def resolveProviderChainId {ε : Type} (activeConnector : Option ConnectorController)
    (error : Option (ViewError ε)) (readonlyNetwork : Option ReadonlyNetwork) :
    Option Provider × Option Int :=
  match activeConnector.bind ConnectorController.getProvider with
  | some p =>
    (some p, if error.isSome then none else activeConnector.bind ConnectorController.chainId)
  | none =>
    (readonlyNetwork.map ReadonlyNetwork.provider, readonlyNetwork.map ReadonlyNetwork.chainId)

/-- Account derivation of useEthers (part_000 line 126): the first entry of
the accounts of the active connector, checksum-normalized by the external
getAddress when that entry is truthy (a nonempty string); undefined otherwise.
getAddress belongs to the external ethers library and is a parameter. -/
def accountOf (getAddress : String → String)
    (activeConnector : Option ConnectorController) : Option String :=
  match activeConnector with
  | none => none
  | some c =>
    match c.accounts.head? with
    | none => none
    | some a => if a = "" then none else some (getAddress a)

/-- Argument passed to switchNetwork: a JS number (embedded as a rational) or
any non-numeric value. -/
inductive JsArg where
  | num (q : ℚ)
  | other
  deriving DecidableEq

/-- Modelled from the spec: validateArguments checks the chainId argument
(helper file not among the provided sources).  Per the spec the input is
validated to be a number and a non-integer such as 4.5 is invalid, so a valid
argument is a number whose value is an integer. -/
def validChainIdArg : JsArg → Bool
  | JsArg.num q => q.den == 1
  | JsArg.other => false

/-- Error thrown by switchNetwork: the argument-validation error, the
provider-not-connected error, or a propagated rejection of the recovery
wallet_addEthereumChain send (carrying its optional code). -/
inductive SwitchError where
  | invalidArgument
  | providerNotConnected
  | rpc (code : Option Int)
  deriving DecidableEq

/-- switchNetwork of useEthers (part_000 lines 106 to 124) over the resolved
provider: validate the argument, require a provider with raw send, issue
wallet_switchEthereumChain with the hex chain id; on rejection with code 4902,
when the configured networks contain an entry for the chain with a truthy
rpcUrl, issue wallet_addEthereumChain with the add-network parameters (a
rejection of that send escapes the catch block and propagates); every other
rejection of the switch send is caught and absorbed.  Returns the outcome and
the list of RPC calls issued, in order. -/
def switchNetwork (networks : Option (List Chain)) (provider : Option Provider)
    (arg : JsArg) : Except SwitchError Unit × List RpcCall :=
  if !(validChainIdArg arg) then
    (Except.error SwitchError.invalidArgument, [])
  else
    match provider with
    | none => (Except.error SwitchError.providerNotConnected, [])
    | some p =>
      if !p.hasSend then
        (Except.error SwitchError.providerNotConnected, [])
      else
        let c : Int := match arg with | JsArg.num q => q.num | JsArg.other => 0
        let switchParams : List RpcParam := [RpcParam.chainIdParam ("0x" ++ intToHex c)]
        let switchCall : RpcCall := ⟨"wallet_switchEthereumChain", switchParams⟩
        match p.respond "wallet_switchEthereumChain" switchParams with
        | SendResult.ok => (Except.ok (), [switchCall])
        | SendResult.err code =>
          if code = some 4902 then
            match (networks.getD []).find? (fun ch => ch.chainId == c) with
            | none => (Except.ok (), [switchCall])
            | some chain =>
              if chain.rpcUrl.getD "" = "" then
                (Except.ok (), [switchCall])
              else
                let addParams : List RpcParam :=
                  [RpcParam.addNetworkParam (getAddNetworkParams chain)]
                let addCall : RpcCall := ⟨"wallet_addEthereumChain", addParams⟩
                match p.respond "wallet_addEthereumChain" addParams with
                | SendResult.ok => (Except.ok (), [switchCall, addCall])
                | SendResult.err code2 =>
                  (Except.error (SwitchError.rpc code2), [switchCall, addCall])
          else (Except.ok (), [switchCall])

/-- C1: the claim quantifies over every defined active chain id, but the
effect guards the chain id by JS truthiness, so chain id 0 never triggers a
synthesized error: with 0 absent from both (empty) configured sets the error
is not the claimed Unsupported chain-id error; it is the last external error,
here none. -/
theorem c1_counterexample :
    computeError (ε := Nat) (some []) (some []) (some 0) [] = none ∧
    computeError (ε := Nat) (some []) (some []) (some 0) [] ≠
      some (ViewError.chainId ChainIdErrorKind.unsupported 0) :=
  ⟨rfl, by decide⟩

/-- C1 (amended): for every render of useEthers with an active connector whose
chain id is defined and nonzero, with read-only URLs and networks configured:
if the chain id is absent from the configured read-only-URL chain-id set or
from the supported-networks set, the error is a synthesized chain-id error,
Unsupported when absent from supported-networks (taking precedence) and
NotConfigured otherwise; if present in both sets, the error equals the last
element of the externally reported error list (none when that list is
empty). -/
theorem c1_chain_validity_amended {ε : Type} (ro : List (Int × String))
    (ns : List Chain) (c : Int) (hc : c ≠ 0) (errors : List ε) :
    (((ro.map Prod.fst).contains c = false ∨ (ns.map Chain.chainId).contains c = false) →
      computeError (some ro) (some ns) (some c) errors =
        some (ViewError.chainId
          (if (ns.map Chain.chainId).contains c then ChainIdErrorKind.notConfigured
           else ChainIdErrorKind.unsupported) c)) ∧
    ((ro.map Prod.fst).contains c = true → (ns.map Chain.chainId).contains c = true →
      computeError (some ro) (some ns) (some c) errors =
        errors.getLast?.map ViewError.external) := by
  have hcb : (c != 0) = true := by simpa [bne_iff_ne] using hc
  constructor
  · intro h
    rcases hro : (ro.map Prod.fst).contains c with _ | _
    · rcases hns : (ns.map Chain.chainId).contains c with _ | _
      · simp only [computeError, Option.getD_some, Option.isSome_some, Option.map_some',
          hcb, hro, hns]
        simp
      · simp only [computeError, Option.getD_some, Option.isSome_some, Option.map_some',
          hcb, hro, hns]
        simp
    · rcases hns : (ns.map Chain.chainId).contains c with _ | _
      · simp only [computeError, Option.getD_some, Option.isSome_some, Option.map_some',
          hcb, hro, hns]
        simp
      · rw [hro, hns] at h
        rcases h with h | h <;> simp at h
  · intro h1 h2
    simp only [computeError, Option.getD_some, Option.isSome_some, Option.map_some',
      hcb, h1, h2]
    simp

/-- C1 (witness): chain id 5 with one configured read-only URL for chain 1 and
an empty networks list yields the Unsupported chain-id error. -/
theorem c1_chain_validity_witness :
    computeError (ε := Nat) (some [(1, "https://mainnet.example")]) (some []) (some 5) [] =
      some (ViewError.chainId ChainIdErrorKind.unsupported 5) :=
  (c1_chain_validity_amended [(1, "https://mainnet.example")] [] 5 (by decide) []).1
    (Or.inr (by decide))

/-- C2: when the switch send rejects with code 4902 and the configured
networks contain an entry for the requested chain with a truthy rpcUrl,
switchNetwork issues exactly two RPC calls: wallet_switchEthereumChain with
the hex chain-id parameter, then wallet_addEthereumChain with the add-network
parameters built from that configured entry. -/
theorem c2_switch_then_add (ns : List Chain) (p : Provider) (c : Int) (chain : Chain)
    (hsend : p.hasSend = true)
    (hswitch : p.respond "wallet_switchEthereumChain"
        [RpcParam.chainIdParam ("0x" ++ intToHex c)] = SendResult.err (some 4902))
    (hfind : ns.find? (fun ch => ch.chainId == c) = some chain)
    (hrpc : chain.rpcUrl.getD "" ≠ "") :
    (switchNetwork (some ns) (some p) (JsArg.num (c : ℚ))).2 =
      [⟨"wallet_switchEthereumChain", [RpcParam.chainIdParam ("0x" ++ intToHex c)]⟩,
       ⟨"wallet_addEthereumChain",
        [RpcParam.addNetworkParam (getAddNetworkParams chain)]⟩] := by
  have hv : validChainIdArg (JsArg.num (c : ℚ)) = true := by simp [validChainIdArg]
  rcases h2 : p.respond "wallet_addEthereumChain"
      [RpcParam.addNetworkParam (getAddNetworkParams chain)] with _ | code2 <;>
    simp [switchNetwork, hv, hsend, hswitch, hfind, hrpc, h2]

/-- C2 (witness): switchNetwork 137 against a provider rejecting the switch
with 4902, with chain 137 configured with an rpcUrl, issues the switch call
then the add call built from that entry. -/
theorem c2_switch_then_add_witness :
    (switchNetwork (some [⟨137, "Polygon", some "https://polygon.example", none, none⟩])
      (some ⟨true, fun m _ => if m = "wallet_switchEthereumChain"
        then SendResult.err (some 4902) else SendResult.ok⟩)
      (JsArg.num ((137 : Int) : ℚ))).2 =
      [⟨"wallet_switchEthereumChain", [RpcParam.chainIdParam ("0x" ++ intToHex 137)]⟩,
       ⟨"wallet_addEthereumChain", [RpcParam.addNetworkParam
         (getAddNetworkParams ⟨137, "Polygon", some "https://polygon.example", none, none⟩)]⟩] :=
  c2_switch_then_add [⟨137, "Polygon", some "https://polygon.example", none, none⟩]
    ⟨true, fun m _ => if m = "wallet_switchEthereumChain"
      then SendResult.err (some 4902) else SendResult.ok⟩
    137 ⟨137, "Polygon", some "https://polygon.example", none, none⟩
    rfl rfl rfl (by decide)

/-- C3: the claim says a failure of the recovery wallet_addEthereumChain send
is silently discarded, but a rejection raised inside the catch block escapes
it: with the switch send rejecting with 4902 and the add send rejecting with
code 999, switchNetwork surfaces the add-chain error to its caller. -/
theorem c3_counterexample :
    switchNetwork (some [⟨137, "Polygon", some "https://polygon.example", none, none⟩])
      (some ⟨true, fun m _ => if m = "wallet_addEthereumChain"
        then SendResult.err (some 999) else SendResult.err (some 4902)⟩)
      (JsArg.num ((137 : Int) : ℚ)) =
      (Except.error (SwitchError.rpc (some 999)),
       [⟨"wallet_switchEthereumChain", [RpcParam.chainIdParam ("0x" ++ intToHex 137)]⟩,
        ⟨"wallet_addEthereumChain", [RpcParam.addNetworkParam
          (getAddNetworkParams ⟨137, "Polygon", some "https://polygon.example", none, none⟩)]⟩]) :=
  rfl

/-- C3 (amended): when the recovery wallet_addEthereumChain send fails, that
failure is not discarded: switchNetwork rejects with the add-chain error (the
original switch rejection is the one that is absorbed). -/
theorem c3_add_chain_failure_propagates (ns : List Chain) (p : Provider) (c : Int)
    (chain : Chain) (code2 : Option Int)
    (hsend : p.hasSend = true)
    (hswitch : p.respond "wallet_switchEthereumChain"
        [RpcParam.chainIdParam ("0x" ++ intToHex c)] = SendResult.err (some 4902))
    (hfind : ns.find? (fun ch => ch.chainId == c) = some chain)
    (hrpc : chain.rpcUrl.getD "" ≠ "")
    (hadd : p.respond "wallet_addEthereumChain"
        [RpcParam.addNetworkParam (getAddNetworkParams chain)] = SendResult.err code2) :
    (switchNetwork (some ns) (some p) (JsArg.num (c : ℚ))).1 =
      Except.error (SwitchError.rpc code2) := by
  have hv : validChainIdArg (JsArg.num (c : ℚ)) = true := by simp [validChainIdArg]
  simp [switchNetwork, hv, hsend, hswitch, hfind, hrpc, hadd]

/-- C3 (witness): with the add send rejecting with code 998, switchNetwork
rejects with that code. -/
theorem c3_add_chain_failure_witness :
    (switchNetwork (some [⟨137, "Polygon", some "https://polygon.example", none, none⟩])
      (some ⟨true, fun m _ => if m = "wallet_addEthereumChain"
        then SendResult.err (some 998) else SendResult.err (some 4902)⟩)
      (JsArg.num ((137 : Int) : ℚ))).1 = Except.error (SwitchError.rpc (some 998)) :=
  c3_add_chain_failure_propagates
    [⟨137, "Polygon", some "https://polygon.example", none, none⟩]
    ⟨true, fun m _ => if m = "wallet_addEthereumChain"
      then SendResult.err (some 998) else SendResult.err (some 4902)⟩
    137 ⟨137, "Polygon", some "https://polygon.example", none, none⟩ (some 998)
    rfl rfl rfl (by decide) rfl

/-- C4: with an active connector exposing a live provider, the resolved chain
id is none whenever the error is set, and equals the connector chain id when
the error is unset. -/
theorem c4_error_masks_chain_id {ε : Type} (c : ConnectorController) (p : Provider)
    (hp : c.getProvider = some p) (err : Option (ViewError ε))
    (ro : Option ReadonlyNetwork) :
    (err.isSome = true → (resolveProviderChainId (some c) err ro).2 = none) ∧
    (err = none → (resolveProviderChainId (some c) err ro).2 = c.chainId) := by
  constructor
  · intro h
    simp [resolveProviderChainId, hp, h]
  · intro h
    subst h
    simp [resolveProviderChainId, hp]

/-- C4 (witness): a connector on chain 1 with a live provider and no error
resolves to chain id 1. -/
theorem c4_error_masks_chain_id_witness :
    (resolveProviderChainId (ε := Nat)
      (some ⟨some 1, [], some ⟨true, fun _ _ => SendResult.ok⟩⟩) none none).2 = some 1 :=
  (c4_error_masks_chain_id ⟨some 1, [], some ⟨true, fun _ _ => SendResult.ok⟩⟩
    ⟨true, fun _ _ => SendResult.ok⟩ rfl none none).2 rfl

/-- C5: whenever the active connector is absent or exposes no live provider,
the resolved provider and chain id fall back exactly to the read-only network
values, both none when no read-only network is configured. -/
theorem c5_readonly_fallback {ε : Type} (ac : Option ConnectorController)
    (h : ac.bind ConnectorController.getProvider = none)
    (err : Option (ViewError ε)) (ro : Option ReadonlyNetwork) :
    resolveProviderChainId ac err ro =
      (ro.map ReadonlyNetwork.provider, ro.map ReadonlyNetwork.chainId) ∧
    (ro = none → resolveProviderChainId ac err ro = (none, none)) := by
  refine ⟨?_, ?_⟩
  · simp [resolveProviderChainId, h]
  · intro hro
    subst hro
    simp [resolveProviderChainId, h]

/-- C5 (witness): with no active connector and no read-only network, provider
and chain id are both none. -/
theorem c5_readonly_fallback_witness :
    resolveProviderChainId (ε := Nat) none none none = (none, none) :=
  (c5_readonly_fallback none rfl none none).2 rfl

/-- C6: every invalid switchNetwork argument (a non-number, or a non-integer
number such as 4.5) fails with the argument-validation error and issues no
RPC call. -/
theorem c6_invalid_argument (networks : Option (List Chain))
    (provider : Option Provider) (arg : JsArg)
    (h : validChainIdArg arg = false) :
    switchNetwork networks provider arg =
      (Except.error SwitchError.invalidArgument, []) := by
  simp [switchNetwork, h]

/-- C6 (witness): switchNetwork applied to 4.5 (the rational 9/2) fails with
the argument-validation error and issues no RPC call. -/
theorem c6_invalid_argument_witness :
    switchNetwork none none (JsArg.num (mkRat 9 2)) =
      (Except.error SwitchError.invalidArgument, []) :=
  c6_invalid_argument none none (JsArg.num (mkRat 9 2)) rfl

/-- C7: a valid numeric chain id with no provider, or a provider without the
raw send capability, fails with the provider-not-connected error and issues
no RPC call. -/
theorem c7_not_connected (networks : Option (List Chain))
    (provider : Option Provider) (q : ℚ) (hq : q.den = 1)
    (h : provider = none ∨ ∃ p, provider = some p ∧ p.hasSend = false) :
    switchNetwork networks provider (JsArg.num q) =
      (Except.error SwitchError.providerNotConnected, []) := by
  have hv : validChainIdArg (JsArg.num q) = true := by simp [validChainIdArg, hq]
  rcases h with h | ⟨p, hp, hsend⟩
  · subst h
    simp [switchNetwork, hv]
  · subst hp
    simp [switchNetwork, hv, hsend]

/-- C7 (witness): switchNetwork 137 with no provider fails with the
provider-not-connected error and issues no RPC call. -/
theorem c7_not_connected_witness :
    switchNetwork none none (JsArg.num ((137 : Int) : ℚ)) =
      (Except.error SwitchError.providerNotConnected, []) :=
  c7_not_connected none none ((137 : Int) : ℚ) rfl (Or.inl rfl)

/-- C8: the account is the checksum-normalized (by the external getAddress)
first entry of the accounts of the active connector, and is none when there
is no active connector or the accounts list is empty. -/
theorem c8_account_checksum (getAddress : String → String)
    (c : ConnectorController) (a : String)
    (h1 : c.accounts.head? = some a) (h2 : a ≠ "") :
    accountOf getAddress (some c) = some (getAddress a) ∧
    accountOf getAddress none = none ∧
    (∀ c2 : ConnectorController, c2.accounts = [] → accountOf getAddress (some c2) = none) := by
  refine ⟨?_, rfl, ?_⟩
  · simp [accountOf, h1, h2]
  · intro c2 hc2
    simp [accountOf, hc2]

/-- C8 (witness): with accounts starting with 0xab, the account is the
normalization of 0xab (here the identity normalization). -/
theorem c8_account_checksum_witness :
    accountOf (fun s => s) (some ⟨some 1, ["0xab", "0xcd"], none⟩) = some "0xab" :=
  (c8_account_checksum (fun s => s) ⟨some 1, ["0xab", "0xcd"], none⟩ "0xab" rfl
    (by decide)).1

/-- C9: the claim says no NotConfigured error is synthesized when no
read-only-URL configuration is defined, but the configured chain-id set then
defaults to the empty set, so chain id 5 (with no networks list either) does
get the NotConfigured chain-id error. -/
theorem c9_counterexample :
    computeError (ε := Nat) none none (some 5) [] =
      some (ViewError.chainId ChainIdErrorKind.notConfigured 5) :=
  rfl

/-- C9 (amended): when no read-only-URL configuration is defined the
configured chain-id set defaults to empty, so for every nonzero defined chain
id (with no supported-networks list, which would otherwise take precedence)
the notConfigured condition holds and the NotConfigured chain-id error is
synthesized. -/
theorem c9_not_configured_default_empty {ε : Type} (c : Int) (hc : c ≠ 0)
    (errors : List ε) :
    computeError none none (some c) errors =
      some (ViewError.chainId ChainIdErrorKind.notConfigured c) := by
  have hcb : (c != 0) = true := by simpa [bne_iff_ne] using hc
  simp [computeError, hcb]

/-- C9 (witness): chain id 7 with no read-only-URL configuration gets the
NotConfigured chain-id error. -/
theorem c9_not_configured_witness :
    computeError (ε := Nat) none none (some 7) [] =
      some (ViewError.chainId ChainIdErrorKind.notConfigured 7) :=
  c9_not_configured_default_empty 7 (by decide) []

/-- C10: chain id 0 is falsy, so the chain-validity check treats it exactly
like an undefined chain id: no chain-id policy error is synthesized whatever
the configured sets, and the error is the last externally reported error. -/
theorem c10_zero_chain_id {ε : Type} (ro : Option (List (Int × String)))
    (ns : Option (List Chain)) (errors : List ε) :
    computeError ro ns (some 0) errors = errors.getLast?.map ViewError.external ∧
    computeError ro ns (some 0) errors = computeError ro ns none errors := by
  constructor <;> simp [computeError]

end UseDapp
